import Mathlib

/-! Cinder collectors of the OpenStack exporter.

A shallow embedding of `exporters/cinder.go` and the properties of its
status enumerator, endpoint selection and collector routines.

Modelling conventions.

* A Go `string` is a Lean `String` (a sequence of Unicode code points, i.e. a
  well-formed UTF-8 string).
* A Go `int` is an `Int`; `float64(n)` of an `int` is represented by the integer
  `n` itself, so a sample value is the integer that the code converts.
* The channel `ch` is the list of samples sent on it, oldest first.
* The collaborators that are not part of `cinder.go` (the gophercloud client,
  the metric registry of the base exporter, the package-level `endpointOpts`
  map) are parameters; every call made to the client is recorded in a trace.
* A Go run-time panic is an explicit outcome.
-/

namespace Exporters

/-! ## Library behaviour used by the source -/

/-- A Go `error` value, identified by its message. -/
structure GoError where
  msg : String
  deriving DecidableEq, Repr

/-- The Go call `errors.New(text)`. -/
def errorsNew (text : String) : GoError := ⟨text⟩

/-- The test `c < utf8.RuneSelf` on every element of the string. -/
def isASCII (s : String) : Bool :=
  s.data.all (fun c => decide (c.toNat < 128))

/-- The test `'A' <= c && c <= 'Z'`. -/
def isUpperASCII (c : Char) : Bool :=
  decide (65 ≤ c.toNat) && decide (c.toNat ≤ 90)

/-- The flag `hasUpper` computed by `strings.ToLower`. -/
def hasUpper (s : String) : Bool :=
  s.data.any isUpperASCII

/-- The ASCII step `c += 'a' - 'A'` applied to upper-case letters only. -/
def lowerASCII (c : Char) : Char :=
  if isUpperASCII c then Char.ofNat (c.toNat + 32) else c

/-- The Go function `unicode.ToLower`: ASCII runes are lowered arithmetically, every
other rune goes through the Unicode case tables, which are the parameter
`caseTable` (it stands for `unicode.To(unicode.LowerCase, r)`). -/
def unicodeToLower (caseTable : Char → Char) (r : Char) : Char :=
  if r.toNat ≤ 127 then lowerASCII r else caseTable r

/-- The Go function `strings.ToLower`: an ASCII-only string without upper-case
letters is returned as it is, an ASCII-only string is lowered byte by byte, and
any other string is mapped rune by rune through `unicode.ToLower`. -/
def ToLower (caseTable : Char → Char) (s : String) : String :=
  if isASCII s then
    if hasUpper s then String.mk (s.data.map lowerASCII) else s
  else
    String.mk (s.data.map (unicodeToLower caseTable))

/-- The Go function `strconv.Itoa`: the decimal form of an integer, with a leading
minus sign for a negative one. -/
def Itoa (i : Int) : String := toString i

/-- The value kinds `prometheus.GaugeValue` and `prometheus.CounterValue`. -/
inductive ValueType where
  | GaugeValue
  | CounterValue
  deriving DecidableEq, Repr

/-- A successfully built `*prometheus.Desc`: its fully qualified name and the
ordered names of its variable labels. -/
structure Desc where
  fqName : String
  variableLabels : List String
  deriving DecidableEq, Repr

/-- A constant metric as sent on the channel: the descriptor it was built from,
its value kind, its value and its label values in the order they were passed. -/
structure Sample where
  desc : Desc
  valueType : ValueType
  value : Int
  labelValues : List String
  deriving DecidableEq, Repr

/-- The Go call `prometheus.MustNewConstMetric(m.Metric, valueType, value, labelValues...)`
where `m` is the result of indexing the registry: it panics (`none`) when the
registry has no such entry (nil dereference) or when the number of label values
differs from the number of variable labels of the descriptor, and otherwise
returns the metric. -/
def MustNewConstMetric (entry : Option Desc) (valueType : ValueType) (value : Int)
    (labelValues : List String) : Option Sample :=
  match entry with
  | none => none
  | some desc =>
    if desc.variableLabels.length = labelValues.length then
      some ⟨desc, valueType, value, labelValues⟩
    else
      none

/-! ## Records read from the cloud API -/

/-- The fields of `VolumeWithExt` (`volumes.Volume` joined with
`volumetenants.VolumeTenantExt`) that the collector reads. -/
structure VolumeWithExt where
  ID : String
  Name : String
  Status : String
  Bootable : String
  TenantID : String
  Size : Int
  VolumeType : String
  deriving DecidableEq, Repr

/-- A record of `snapshots.Snapshot`; the collector only counts them. -/
structure Snapshot where
  ID : String
  deriving DecidableEq, Repr

/-- The fields of `services.Service` that the collector reads. -/
structure Service where
  Host : String
  Binary : String
  Status : String
  Zone : String
  State : String
  deriving DecidableEq, Repr

/-- The fields of `projects.Project` that the collector reads. -/
structure Project where
  ID : String
  Name : String
  deriving DecidableEq, Repr

/-- The field of `quotasets.QuotaSet` that the collector reads. -/
structure QuotaSet where
  Gigabytes : Int
  deriving DecidableEq, Repr

/-- The type `quotasets.QuotaUsage`, of which the collector reads `InUse`. -/
structure QuotaUsage where
  InUse : Int
  deriving DecidableEq, Repr

/-- The field of `quotasets.QuotaUsageSet` that the collector reads. -/
structure QuotaUsageSet where
  Gigabytes : QuotaUsage
  deriving DecidableEq, Repr

/-- The type `gophercloud.EndpointOpts` (its field `Type` is written `Type_`). -/
structure EndpointOpts where
  Type_ : String
  Name : String
  Region : String
  Availability : String
  deriving DecidableEq, Repr

/-! ## Collaborators -/

/-- The answers of the cloud behind `exporter.Client`, one field per call the
source makes. `Pages` is the result of draining a page iterator and
`IdentityClient` the client built by `openstack.NewIdentityV3`. -/
structure ServiceClient where
  Pages : Type
  IdentityClient : Type
  /-- The call `volumes.List(client, ListOpts with AllTenants).AllPages()`. -/
  volumesAllPages : Except GoError Pages
  /-- The call `volumes.ExtractVolumesInto(pages, &allVolumes)`. -/
  ExtractVolumesInto : Pages → Except GoError (List VolumeWithExt)
  /-- The call `snapshots.List(client, ListOpts with AllTenants).AllPages()`. -/
  snapshotsAllPages : Except GoError Pages
  /-- The call `snapshots.ExtractSnapshots(pages)`. -/
  ExtractSnapshots : Pages → Except GoError (List Snapshot)
  /-- The call `services.List(client, ListOpts).AllPages()`. -/
  servicesAllPages : Except GoError Pages
  /-- The call `services.ExtractServices(pages)`. -/
  ExtractServices : Pages → Except GoError (List Service)
  /-- The call `openstack.NewIdentityV3(client.ProviderClient, eo)`. -/
  NewIdentityV3 : EndpointOpts → Except GoError IdentityClient
  /-- The call `projects.List(c, ListOpts).AllPages()`. -/
  projectsAllPages : IdentityClient → Except GoError Pages
  /-- The call `projects.ExtractProjects(pages)`. -/
  ExtractProjects : Pages → Except GoError (List Project)
  /-- The call `quotasets.Get(client, projectID).Extract()`. -/
  quotasetsGet : String → Except GoError QuotaSet
  /-- The call `quotasets.GetUsage(client, projectID).Extract()`. -/
  quotasetsGetUsage : String → Except GoError QuotaUsageSet

/-- The parts of `BaseOpenStackExporter` that the collectors use: the registry
`Metrics` (indexing it by a name that was not added gives `none`) and the
injected client. -/
structure BaseOpenStackExporter where
  Metrics : String → Option Desc
  Client : ServiceClient

/-- A call made to a collaborator. -/
inductive Call where
  | volumesAllPages
  | extractVolumesInto
  | snapshotsAllPages
  | extractSnapshots
  | servicesAllPages
  | extractServices
  | newIdentityV3 (eo : EndpointOpts)
  | projectsAllPages
  | extractProjects
  | quotasetsGet (projectID : String)
  | quotasetsGetUsage (projectID : String)
  deriving DecidableEq, Repr

/-- The observable state around one collector call: the samples sent on the
channel and the calls made to the collaborators, both oldest first. -/
structure World where
  sink : List Sample
  calls : List Call
  deriving DecidableEq, Repr

/-- The channel send `ch <- m`. -/
def World.send (w : World) (m : Sample) : World :=
  { w with sink := w.sink ++ [m] }

/-- Records a call to a collaborator. -/
def World.call (w : World) (c : Call) : World :=
  { w with calls := w.calls ++ [c] }

/-- How a routine ends: it returns its `error` result (`none` is `nil`) or it
panics. -/
inductive Outcome where
  | returned (err : Option GoError)
  | panicked
  deriving DecidableEq, Repr

/-- The result of running a collector: how it ended and the state it left. -/
structure Run where
  result : Outcome
  world : World
  deriving DecidableEq, Repr

/-! ## The source: `exporters/cinder.go` -/

/-- One item of `defaultCinderMetrics`; `Fn` names the routine, if any. -/
structure Metric where
  Name : String
  Labels : List String
  Fn : Option String
  deriving DecidableEq, Repr

/-- The vocabulary `volume_status`. -/
def volume_status : List String :=
  [ "creating",
    "available",
    "reserved",
    "attaching",
    "detaching",
    "in-use",
    "maintenance",
    "deleting",
    "awaiting-transfer",
    "error",
    "error_deleting",
    "backing-up",
    "restoring-backup",
    "error_backing-up",
    "error_restoring",
    "error_extending",
    "downloading",
    "uploading",
    "retyping",
    "extending" ]

/-- The loop of `mapVolumeStatus` from position `idx` on, over the rest of the
vocabulary. -/
def mapVolumeStatusFrom (caseTable : Char → Char) (volStatus : String) :
    Nat → List String → Int
  | _, [] => -1
  | idx, status :: rest =>
    if status = ToLower caseTable volStatus then (idx : Int)
    else mapVolumeStatusFrom caseTable volStatus (idx + 1) rest

/-- The function `mapVolumeStatus`. -/
def mapVolumeStatus (caseTable : Char → Char) (volStatus : String) : Int :=
  mapVolumeStatusFrom caseTable volStatus 0 volume_status

/-- The table `defaultCinderMetrics`. -/
def defaultCinderMetrics : List Metric :=
  [ ⟨"volumes", [], some "ListVolumes"⟩,
    ⟨"snapshots", [], some "ListSnapshots"⟩,
    ⟨"agent_state", ["hostname", "service", "adminState", "zone"], some "ListCinderAgentState"⟩,
    ⟨"volume_status",
      ["id", "name", "status", "bootable", "tenant_id", "size", "volume_type"], none⟩,
    ⟨"limits_max", ["tenant"], some "ListCinderLimits"⟩,
    ⟨"limits_used", ["tenant"], none⟩ ]

/-- The loop `for _, volume := range allVolumes` of `ListVolumes`. -/
def volumeStatusLoop (caseTable : Char → Char) (exporter : BaseOpenStackExporter) :
    List VolumeWithExt → World → Run
  | [], w => ⟨.returned none, w⟩
  | volume :: rest, w =>
    match MustNewConstMetric (exporter.Metrics "volume_status") .GaugeValue
        (mapVolumeStatus caseTable volume.Status)
        [volume.ID, volume.Name, volume.Status, volume.Bootable, volume.TenantID,
          Itoa volume.Size, volume.VolumeType] with
    | none => ⟨.panicked, w⟩
    | some m => volumeStatusLoop caseTable exporter rest (w.send m)

/-- The routine `ListVolumes`. -/
def ListVolumes (caseTable : Char → Char) (exporter : BaseOpenStackExporter) (w : World) : Run :=
  let w := w.call .volumesAllPages
  match exporter.Client.volumesAllPages with
  | .error err => ⟨.returned (some err), w⟩
  | .ok allPagesVolumes =>
    let w := w.call .extractVolumesInto
    match exporter.Client.ExtractVolumesInto allPagesVolumes with
    | .error err => ⟨.returned (some err), w⟩
    | .ok allVolumes =>
      match MustNewConstMetric (exporter.Metrics "volumes") .GaugeValue
          (allVolumes.length : Int) [] with
      | none => ⟨.panicked, w⟩
      | some m => volumeStatusLoop caseTable exporter allVolumes (w.send m)

/-- The routine `ListSnapshots`. -/
def ListSnapshots (exporter : BaseOpenStackExporter) (w : World) : Run :=
  let w := w.call .snapshotsAllPages
  match exporter.Client.snapshotsAllPages with
  | .error err => ⟨.returned (some err), w⟩
  | .ok allPagesSnapshot =>
    let w := w.call .extractSnapshots
    match exporter.Client.ExtractSnapshots allPagesSnapshot with
    | .error err => ⟨.returned (some err), w⟩
    | .ok allSnapshots =>
      match MustNewConstMetric (exporter.Metrics "snapshots") .GaugeValue
          (allSnapshots.length : Int) [] with
      | none => ⟨.panicked, w⟩
      | some m => ⟨.returned none, w.send m⟩

/-- The value `state` computed in the loop of `ListCinderAgentState`. -/
def agentStateValue (service : Service) : Int :=
  if service.State = "up" then 1 else 0

/-- The loop `for _, service := range allServices` of `ListCinderAgentState`. -/
def agentStateLoop (exporter : BaseOpenStackExporter) : List Service → World → Run
  | [], w => ⟨.returned none, w⟩
  | service :: rest, w =>
    match MustNewConstMetric (exporter.Metrics "agent_state") .CounterValue
        (agentStateValue service)
        [service.Host, service.Binary, service.Status, service.Zone] with
    | none => ⟨.panicked, w⟩
    | some m => agentStateLoop exporter rest (w.send m)

/-- The routine `ListCinderAgentState`. -/
def ListCinderAgentState (exporter : BaseOpenStackExporter) (w : World) : Run :=
  let w := w.call .servicesAllPages
  match exporter.Client.servicesAllPages with
  | .error err => ⟨.returned (some err), w⟩
  | .ok allPagesService =>
    let w := w.call .extractServices
    match exporter.Client.ExtractServices allPagesService with
    | .error err => ⟨.returned (some err), w⟩
    | .ok allServices => agentStateLoop exporter allServices w

/-- The selection of `eo` at the start of `ListCinderLimits` (the chain
`if v, ok := endpointOpts["identity"]; ok ... else if v, ok := endpointOpts["cinder"]; ok ...
else return errors.New(...)`); the map `endpointOpts` is the parameter. -/
def selectEndpointOpts (endpointOpts : String → Option EndpointOpts) :
    Except GoError EndpointOpts :=
  match endpointOpts "identity" with
  | some v => .ok v
  | none =>
    match endpointOpts "cinder" with
    | some v => .ok v
    | none => .error (errorsNew "No EndpointOpts available to create Identity client")

/-- The loop `for _, p := range allProjects` of `ListCinderLimits`. -/
def limitsLoop (exporter : BaseOpenStackExporter) : List Project → World → Run
  | [], w => ⟨.returned none, w⟩
  | p :: rest, w =>
    let w := w.call (.quotasetsGet p.ID)
    match exporter.Client.quotasetsGet p.ID with
    | .error err => ⟨.returned (some err), w⟩
    | .ok limits =>
      let w := w.call (.quotasetsGetUsage p.ID)
      match exporter.Client.quotasetsGetUsage p.ID with
      | .error err => ⟨.returned (some err), w⟩
      | .ok limitsUsed =>
        match MustNewConstMetric (exporter.Metrics "limits_max") .GaugeValue
            limits.Gigabytes [p.Name] with
        | none => ⟨.panicked, w⟩
        | some mMax =>
          let w := w.send mMax
          match MustNewConstMetric (exporter.Metrics "limits_used") .GaugeValue
              limitsUsed.Gigabytes.InUse [p.Name] with
          | none => ⟨.panicked, w⟩
          | some mUsed => limitsLoop exporter rest (w.send mUsed)

/-- The routine `ListCinderLimits`; the package-level map `endpointOpts` is a
parameter. -/
def ListCinderLimits (exporter : BaseOpenStackExporter)
    (endpointOpts : String → Option EndpointOpts) (w : World) : Run :=
  match selectEndpointOpts endpointOpts with
  | .error err => ⟨.returned (some err), w⟩
  | .ok eo =>
    let w := w.call (.newIdentityV3 eo)
    match exporter.Client.NewIdentityV3 eo with
    | .error err => ⟨.returned (some err), w⟩
    | .ok c =>
      let w := w.call .projectsAllPages
      match exporter.Client.projectsAllPages c with
      | .error err => ⟨.returned (some err), w⟩
      | .ok allPagesProject =>
        let w := w.call .extractProjects
        match exporter.Client.ExtractProjects allPagesProject with
        | .error err => ⟨.returned (some err), w⟩
        | .ok allProjects => limitsLoop exporter allProjects w

/-! ## Auxiliary notions used in the statements -/

/-- The label schema declared for a metric name in `defaultCinderMetrics`. -/
def declaredLabels (name : String) : Option (List String) :=
  (defaultCinderMetrics.find? (fun m => m.Name = name)).map Metric.Labels

/-- The `limits_max` and `limits_used` samples of one tenant with the given quota
and usage. -/
def limitsSamples (dMax dUsed : Desc) (p : Project) (limits : QuotaSet)
    (limitsUsed : QuotaUsageSet) : List Sample :=
  [⟨dMax, .GaugeValue, limits.Gigabytes, [p.Name]⟩,
    ⟨dUsed, .GaugeValue, limitsUsed.Gigabytes.InUse, [p.Name]⟩]

/-- The two fetches issued for one tenant. -/
def limitsCalls (p : Project) : List Call :=
  [.quotasetsGet p.ID, .quotasetsGetUsage p.ID]

/-! ## Concrete inputs used by the instances -/

/-- A registry that holds every metric of `defaultCinderMetrics`, named after the
exporter `openstack_cinder`. -/
def demoMetrics (name : String) : Option Desc :=
  (defaultCinderMetrics.find? (fun m => m.Name = name)).map
    (fun m => ⟨"openstack_cinder_" ++ m.Name, m.Labels⟩)

/-- Three volumes with the statuses available, error and unknown-status. -/
def demoVolumes : List VolumeWithExt :=
  [ ⟨"v-1", "root", "available", "true", "t-1", 10, "ssd"⟩,
    ⟨"v-2", "data", "error", "false", "t-1", 250, "hdd"⟩,
    ⟨"v-3", "scratch", "unknown-status", "false", "t-2", 0, ""⟩ ]

/-- Four services, one of them up. -/
def demoServices : List Service :=
  [ ⟨"host-1", "cinder-volume", "enabled", "nova", "up"⟩,
    ⟨"host-2", "cinder-volume", "enabled", "nova", "Up"⟩,
    ⟨"host-3", "cinder-scheduler", "disabled", "nova", "down"⟩,
    ⟨"host-4", "cinder-backup", "enabled", "az2", ""⟩ ]

/-- Three tenants. -/
def demoProjects : List Project :=
  [⟨"p1", "alpha"⟩, ⟨"p2", "beta"⟩, ⟨"p3", "gamma"⟩]

/-- Two tenants. -/
def demoTwoProjects : List Project :=
  [⟨"p1", "alpha"⟩, ⟨"p2", "beta"⟩]

/-- The quota ceiling of the demo tenants. -/
def demoQuota (projectID : String) : QuotaSet :=
  if projectID = "p1" then ⟨1000⟩ else if projectID = "p2" then ⟨500⟩ else ⟨-1⟩

/-- The quota usage of the demo tenants. -/
def demoUsage (projectID : String) : QuotaUsageSet :=
  if projectID = "p1" then ⟨⟨40⟩⟩ else if projectID = "p2" then ⟨⟨499⟩⟩ else ⟨⟨0⟩⟩

/-- A cloud in which every call succeeds. -/
def demoClient : ServiceClient where
  Pages := Unit
  IdentityClient := Unit
  volumesAllPages := .ok ()
  ExtractVolumesInto := fun _ => .ok demoVolumes
  snapshotsAllPages := .ok ()
  ExtractSnapshots := fun _ => .ok [⟨"s-1"⟩, ⟨"s-2"⟩]
  servicesAllPages := .ok ()
  ExtractServices := fun _ => .ok demoServices
  NewIdentityV3 := fun _ => .ok ()
  projectsAllPages := fun _ => .ok ()
  ExtractProjects := fun _ => .ok demoTwoProjects
  quotasetsGet := fun projectID => .ok (demoQuota projectID)
  quotasetsGetUsage := fun projectID => .ok (demoUsage projectID)

/-- The cloud of `demoClient`, except that the usage fetch of tenant `p2` fails. -/
def demoClientUsageFails : ServiceClient where
  Pages := Unit
  IdentityClient := Unit
  volumesAllPages := .ok ()
  ExtractVolumesInto := fun _ => .ok demoVolumes
  snapshotsAllPages := .ok ()
  ExtractSnapshots := fun _ => .ok [⟨"s-1"⟩, ⟨"s-2"⟩]
  servicesAllPages := .ok ()
  ExtractServices := fun _ => .ok demoServices
  NewIdentityV3 := fun _ => .ok ()
  projectsAllPages := fun _ => .ok ()
  ExtractProjects := fun _ => .ok demoProjects
  quotasetsGet := fun projectID => .ok (demoQuota projectID)
  quotasetsGetUsage := fun projectID =>
    if projectID = "p2" then .error ⟨"usage of p2 unavailable"⟩ else .ok (demoUsage projectID)

/-- A cloud in which draining any page iterator fails. -/
def demoClientListingFails : ServiceClient where
  Pages := Unit
  IdentityClient := Unit
  volumesAllPages := .error ⟨"connection reset"⟩
  ExtractVolumesInto := fun _ => .ok demoVolumes
  snapshotsAllPages := .error ⟨"connection reset"⟩
  ExtractSnapshots := fun _ => .ok []
  servicesAllPages := .error ⟨"connection reset"⟩
  ExtractServices := fun _ => .ok demoServices
  NewIdentityV3 := fun _ => .ok ()
  projectsAllPages := fun _ => .error ⟨"connection reset"⟩
  ExtractProjects := fun _ => .ok demoProjects
  quotasetsGet := fun projectID => .ok (demoQuota projectID)
  quotasetsGetUsage := fun projectID => .ok (demoUsage projectID)

/-- The exporter over `demoClient` with the full registry. -/
def demoExporter : BaseOpenStackExporter := ⟨demoMetrics, demoClient⟩

/-- The exporter over `demoClientUsageFails` with the full registry. -/
def demoExporterUsageFails : BaseOpenStackExporter := ⟨demoMetrics, demoClientUsageFails⟩

/-- The exporter over `demoClientListingFails` with the full registry. -/
def demoExporterListingFails : BaseOpenStackExporter := ⟨demoMetrics, demoClientListingFails⟩

/-- The registry `demoMetrics` after one metric name was left out of it. -/
def demoMetricsWithout (disabled : String) (name : String) : Option Desc :=
  if name = disabled then none else demoMetrics name

/-- The exporter over `demoClient` whose registry lacks `snapshots`. -/
def demoExporterNoSnapshots : BaseOpenStackExporter :=
  ⟨demoMetricsWithout "snapshots", demoClient⟩

/-- The exporter over `demoClient` whose registry lacks `volume_status`. -/
def demoExporterNoVolumeStatus : BaseOpenStackExporter :=
  ⟨demoMetricsWithout "volume_status", demoClient⟩

/-- The exporter over `demoClient` whose registry lacks `limits_used`. -/
def demoExporterNoLimitsUsed : BaseOpenStackExporter :=
  ⟨demoMetricsWithout "limits_used", demoClient⟩

/-- The exporter over `demoClientUsageFails` whose registry lacks `limits_used`. -/
def demoExporterNoLimitsUsedUsageFails : BaseOpenStackExporter :=
  ⟨demoMetricsWithout "limits_used", demoClientUsageFails⟩

/-- Connection options of the identity service. -/
def demoIdentityOpts : EndpointOpts := ⟨"identity", "keystone", "RegionOne", "public"⟩

/-- Connection options of the block-storage service. -/
def demoCinderOpts : EndpointOpts := ⟨"volumev3", "cinder", "RegionOne", "internal"⟩

/-- A map `endpointOpts` with both keys. -/
def demoEndpointOpts (key : String) : Option EndpointOpts :=
  if key = "identity" then some demoIdentityOpts
  else if key = "cinder" then some demoCinderOpts
  else none

/-- A map `endpointOpts` with the key `cinder` only. -/
def demoEndpointOptsCinderOnly (key : String) : Option EndpointOpts :=
  if key = "cinder" then some demoCinderOpts else none

/-- The state before a collector call: nothing sent, nothing called. -/
def emptyWorld : World := ⟨[], []⟩

/-! ## The status enumerator -/

/-- The loop result depends on the input only through its lower-case form. -/
theorem mapVolumeStatusFrom_congr (caseTable : Char → Char) (s t : String)
    (h : ToLower caseTable s = ToLower caseTable t) (idx : Nat) (l : List String) :
    mapVolumeStatusFrom caseTable s idx l = mapVolumeStatusFrom caseTable t idx l := by
  induction l generalizing idx with
  | nil => rfl
  | cons status rest ih =>
    simp only [mapVolumeStatusFrom, h]
    split
    · rfl
    · exact ih (idx + 1)

/-- The loop result is the sentinel or a position of the scanned part. -/
theorem mapVolumeStatusFrom_range (caseTable : Char → Char) (s : String) (idx : Nat)
    (l : List String) :
    mapVolumeStatusFrom caseTable s idx l = -1 ∨
      ((idx : Int) ≤ mapVolumeStatusFrom caseTable s idx l ∧
        mapVolumeStatusFrom caseTable s idx l < (idx : Int) + l.length) := by
  induction l generalizing idx with
  | nil => left; rfl
  | cons status rest ih =>
    simp only [mapVolumeStatusFrom]
    split
    · right
      simp only [List.length_cons]
      omega
    · rcases ih (idx + 1) with h | ⟨h1, h2⟩
      · left; exact h
      · right
        simp only [List.length_cons]
        push_cast at h1 h2 ⊢
        omega

/-- The loop returns the sentinel exactly when no scanned entry equals the
lower-case form of the input. -/
theorem mapVolumeStatusFrom_eq_neg_one_iff (caseTable : Char → Char) (s : String) (idx : Nat)
    (l : List String) :
    mapVolumeStatusFrom caseTable s idx l = -1 ↔ ∀ e ∈ l, ToLower caseTable s ≠ e := by
  induction l generalizing idx with
  | nil => simp [mapVolumeStatusFrom]
  | cons status rest ih =>
    simp only [mapVolumeStatusFrom, List.mem_cons, forall_eq_or_imp]
    split
    · rename_i heq
      constructor
      · intro h
        omega
      · intro h
        exact absurd heq.symm h.1
    · rename_i hne
      rw [ih (idx + 1)]
      constructor
      · intro h
        exact ⟨fun h2 => hne h2.symm, h⟩
      · intro h
        exact h.2

/-- Claim C2: `mapVolumeStatus` is case-insensitive. Two strings with the same
lower-case form get the same ordinal; in particular "Available" and "available"
get the same ordinal (which is 1). -/
theorem mapVolumeStatus_case_insensitive (caseTable : Char → Char) :
    (∀ s t : String, ToLower caseTable s = ToLower caseTable t →
        mapVolumeStatus caseTable s = mapVolumeStatus caseTable t) ∧
      mapVolumeStatus caseTable "Available" = mapVolumeStatus caseTable "available" ∧
      mapVolumeStatus caseTable "available" = 1 := by
  refine ⟨fun s t h => mapVolumeStatusFrom_congr caseTable s t h 0 volume_status, rfl, rfl⟩

/-- Instance of claim C2 at the inputs "AVAILABLE" and "aVaIlAbLe", whose lower-case
forms coincide. -/
theorem mapVolumeStatus_case_insensitive_witness :
    ToLower id "AVAILABLE" = ToLower id "aVaIlAbLe" ∧
      mapVolumeStatus id "AVAILABLE" = mapVolumeStatus id "aVaIlAbLe" :=
  ⟨by decide, (mapVolumeStatus_case_insensitive id).1 "AVAILABLE" "aVaIlAbLe" (by decide)⟩

/-- Claim C3: the vocabulary has 20 entries, and `mapVolumeStatus s` is -1 exactly
when the lower-case form of `s` equals no entry of `volume_status`. -/
theorem mapVolumeStatus_eq_neg_one_iff (caseTable : Char → Char) (s : String) :
    volume_status.length = 20 ∧
      ((∀ e ∈ volume_status, ToLower caseTable s ≠ e) → mapVolumeStatus caseTable s = -1) ∧
      (mapVolumeStatus caseTable s = -1 → ∀ e ∈ volume_status, ToLower caseTable s ≠ e) := by
  refine ⟨rfl, ?_, ?_⟩
  · exact (mapVolumeStatusFrom_eq_neg_one_iff caseTable s 0 volume_status).2
  · exact (mapVolumeStatusFrom_eq_neg_one_iff caseTable s 0 volume_status).1

/-- Instance of claim C3 at the input "Unknown-Status", which is not in the
vocabulary. -/
theorem mapVolumeStatus_eq_neg_one_iff_witness :
    (∀ e ∈ volume_status, ToLower id "Unknown-Status" ≠ e) ∧
      mapVolumeStatus id "Unknown-Status" = -1 :=
  ⟨by decide, (mapVolumeStatus_eq_neg_one_iff id "Unknown-Status").2.1 (by decide)⟩

/-- Claim C4: for every input, `mapVolumeStatus` returns an integer between -1 and
N - 1, where N = 20 is the length of `volume_status`. The function is total. -/
theorem mapVolumeStatus_range (caseTable : Char → Char) (s : String) :
    volume_status.length = 20 ∧
      -1 ≤ mapVolumeStatus caseTable s ∧
      mapVolumeStatus caseTable s ≤ (volume_status.length : Int) - 1 := by
  have hlen : volume_status.length = 20 := rfl
  refine ⟨hlen, ?_, ?_⟩
  · rcases mapVolumeStatusFrom_range caseTable s 0 volume_status with h | ⟨h1, _⟩
    · unfold mapVolumeStatus; omega
    · unfold mapVolumeStatus; push_cast at h1; omega
  · rcases mapVolumeStatusFrom_range caseTable s 0 volume_status with h | ⟨_, h2⟩
    · unfold mapVolumeStatus; rw [hlen]; omega
    · unfold mapVolumeStatus; push_cast at h2; omega

/-- Claim C10: every entry of the vocabulary maps to its own position. The 20
entries are pairwise distinct and each is its own lower-case form, every ordinal
from 0 to 19 is returned for some input, and creating, available, error and
extending map to 0, 1, 9 and 19. -/
theorem mapVolumeStatus_vocabulary_position (caseTable : Char → Char) :
    (∀ (i : Nat) (e : String), volume_status[i]? = some e →
        mapVolumeStatus caseTable e = (i : Int)) ∧
      volume_status.length = 20 ∧
      volume_status.Nodup ∧
      (∀ e ∈ volume_status, ToLower caseTable e = e) ∧
      (∀ k : Int, 0 ≤ k → k ≤ 19 → ∃ s : String, mapVolumeStatus caseTable s = k) ∧
      mapVolumeStatus caseTable "creating" = 0 ∧
      mapVolumeStatus caseTable "available" = 1 ∧
      mapVolumeStatus caseTable "error" = 9 ∧
      mapVolumeStatus caseTable "extending" = 19 := by
  have hpos : ∀ (i : Nat) (e : String), volume_status[i]? = some e →
      mapVolumeStatus caseTable e = (i : Int) := by
    intro i e h
    have hi : i < 20 := by
      by_contra hge
      have hnone : volume_status[i]? = none := by
        apply List.getElem?_eq_none
        simp only [volume_status, List.length_cons, List.length_nil]
        omega
      rw [hnone] at h
      exact Option.noConfusion h
    interval_cases i <;>
      · simp only [volume_status, List.getElem?_cons_zero, List.getElem?_cons_succ,
          Option.some.injEq] at h
        subst h
        rfl
  refine ⟨hpos, rfl, by decide, ?_, ?_, rfl, rfl, rfl, rfl⟩
  · intro e he
    simp only [volume_status, List.mem_cons, List.mem_singleton, List.mem_nil_iff,
      or_false] at he
    rcases he with h | h | h | h | h | h | h | h | h | h | h | h | h | h | h | h | h | h | h | h <;>
      · subst h
        rfl
  · intro k h0 h19
    obtain ⟨n, rfl⟩ := Int.eq_ofNat_of_zero_le h0
    have hn : n < 20 := by omega
    have hsome : ∃ e, volume_status[n]? = some e := by
      refine ⟨volume_status[n], ?_⟩
      exact List.getElem?_eq_getElem (by simpa [volume_status] using hn)
    obtain ⟨e, he⟩ := hsome
    exact ⟨e, hpos n e he⟩

/-- Instance of claim C10 at position 13, the entry "error_backing-up". -/
theorem mapVolumeStatus_vocabulary_position_witness :
    volume_status[13]? = some "error_backing-up" ∧
      mapVolumeStatus id "error_backing-up" = 13 :=
  ⟨by decide, (mapVolumeStatus_vocabulary_position id).1 13 "error_backing-up" (by decide)⟩

/-! ## The collectors -/

/-- A descriptor that carries the declared schema of a metric has exactly the labels
the table lists for it. -/
theorem labels_of_declared (name : String) {labels : List String} {d : Desc}
    (htable : declaredLabels name = some labels)
    (hd : declaredLabels name = some d.variableLabels) : d.variableLabels = labels := by
  rw [htable] at hd
  exact (Option.some.inj hd).symm

/-- With a seven-label descriptor registered, the volume loop sends one sample per
volume and returns nil. -/
theorem volumeStatusLoop_ok (caseTable : Char → Char) (exporter : BaseOpenStackExporter)
    (d : Desc) (hd : exporter.Metrics "volume_status" = some d)
    (hl : d.variableLabels.length = 7) (vols : List VolumeWithExt) (w : World) :
    volumeStatusLoop caseTable exporter vols w =
      ⟨.returned none,
        ⟨w.sink ++ vols.map (fun volume =>
            (⟨d, .GaugeValue, mapVolumeStatus caseTable volume.Status,
              [volume.ID, volume.Name, volume.Status, volume.Bootable, volume.TenantID,
                Itoa volume.Size, volume.VolumeType]⟩ : Sample)),
          w.calls⟩⟩ := by
  induction vols generalizing w with
  | nil => simp [volumeStatusLoop]
  | cons volume rest ih =>
    simp only [volumeStatusLoop, MustNewConstMetric, hd, hl, List.length_cons, List.length_nil]
    simp only [Nat.zero_add, Nat.reduceAdd, if_true]
    rw [ih]
    simp [World.send]

/-- Claim C1, amended: when the registry holds the descriptors of `volumes` and
`volume_status` with their declared label schemas, and draining the pages and
extracting the volumes succeed with a list of n volumes, `ListVolumes` returns nil
and sends exactly n + 1 samples: one `volumes` gauge without labels whose value is
n, then one `volume_status` gauge per volume in input order, whose value is
`mapVolumeStatus volume.Status` and whose seven label values (ID, Name, raw Status,
Bootable, TenantID, Size in decimal, VolumeType) pair off position by position with
the declared schema id, name, status, bootable, tenant_id, size, volume_type. The
statuses available, error and unknown-status get the values 1, 9 and -1. -/
theorem ListVolumes_emits (caseTable : Char → Char) (exporter : BaseOpenStackExporter)
    (w : World) (pages : exporter.Client.Pages) (allVolumes : List VolumeWithExt)
    (dVolumes dStatus : Desc)
    (hVolumes : exporter.Metrics "volumes" = some dVolumes)
    (hVolumesLabels : declaredLabels "volumes" = some dVolumes.variableLabels)
    (hStatus : exporter.Metrics "volume_status" = some dStatus)
    (hStatusLabels : declaredLabels "volume_status" = some dStatus.variableLabels)
    (hpages : exporter.Client.volumesAllPages = .ok pages)
    (hextract : exporter.Client.ExtractVolumesInto pages = .ok allVolumes) :
    ∃ samples : List Sample,
      samples =
        (⟨dVolumes, .GaugeValue, (allVolumes.length : Int), []⟩ : Sample) ::
          allVolumes.map (fun volume =>
            (⟨dStatus, .GaugeValue, mapVolumeStatus caseTable volume.Status,
              [volume.ID, volume.Name, volume.Status, volume.Bootable, volume.TenantID,
                Itoa volume.Size, volume.VolumeType]⟩ : Sample)) ∧
      ListVolumes caseTable exporter w =
        ⟨.returned none,
          ⟨w.sink ++ samples, w.calls ++ [.volumesAllPages, .extractVolumesInto]⟩⟩ ∧
      samples.length = allVolumes.length + 1 ∧
      dVolumes.variableLabels = [] ∧
      dStatus.variableLabels =
        ["id", "name", "status", "bootable", "tenant_id", "size", "volume_type"] ∧
      (∀ volume ∈ allVolumes,
        dStatus.variableLabels.zip
            [volume.ID, volume.Name, volume.Status, volume.Bootable, volume.TenantID,
              Itoa volume.Size, volume.VolumeType] =
          [("id", volume.ID), ("name", volume.Name), ("status", volume.Status),
            ("bootable", volume.Bootable), ("tenant_id", volume.TenantID),
            ("size", Itoa volume.Size), ("volume_type", volume.VolumeType)]) ∧
      ["available", "error", "unknown-status"].map (mapVolumeStatus caseTable) = [1, 9, -1] := by
  have hVl : dVolumes.variableLabels = [] := labels_of_declared "volumes" rfl hVolumesLabels
  have hSl : dStatus.variableLabels =
      ["id", "name", "status", "bootable", "tenant_id", "size", "volume_type"] :=
    labels_of_declared "volume_status" rfl hStatusLabels
  refine ⟨_, rfl, ?_, by simp, hVl, hSl, ?_, rfl⟩
  · simp only [ListVolumes, hpages, hextract, MustNewConstMetric, hVolumes, hVl,
      List.length_nil, if_true]
    rw [volumeStatusLoop_ok caseTable exporter dStatus hStatus (by rw [hSl]; rfl)]
    simp [World.send, World.call]
  · intro volume _
    rw [hSl]
    rfl

/-- Instance of claim C1, amended, on the three demo volumes: the values sent are
3, 1, 9, -1 and the label values of each volume are in the declared order. -/
theorem ListVolumes_emits_witness :
    demoExporter.Metrics "volumes" = some ⟨"openstack_cinder_volumes", []⟩ ∧
      demoExporter.Metrics "volume_status" =
        some ⟨"openstack_cinder_volume_status",
          ["id", "name", "status", "bootable", "tenant_id", "size", "volume_type"]⟩ ∧
      (ListVolumes id demoExporter emptyWorld).result = .returned none ∧
      (ListVolumes id demoExporter emptyWorld).world.sink.map Sample.value = [3, 1, 9, -1] ∧
      (ListVolumes id demoExporter emptyWorld).world.sink.map Sample.labelValues =
        [ [],
          ["v-1", "root", "available", "true", "t-1", "10", "ssd"],
          ["v-2", "data", "error", "false", "t-1", "250", "hdd"],
          ["v-3", "scratch", "unknown-status", "false", "t-2", "0", ""] ] := by
  obtain ⟨samples, hs, hrun, _⟩ :=
    ListVolumes_emits id demoExporter emptyWorld () demoVolumes
      ⟨"openstack_cinder_volumes", []⟩
      ⟨"openstack_cinder_volume_status",
        ["id", "name", "status", "bootable", "tenant_id", "size", "volume_type"]⟩
      rfl rfl rfl rfl rfl rfl
  subst hs
  rw [hrun]
  exact ⟨rfl, rfl, rfl, rfl, rfl⟩

/-- Claim C1 as stated fails when the registry lacks `volume_status`: listing and
extraction succeed with three volumes, yet `ListVolumes` sends the `volumes` sample
alone and then panics, so it neither returns nil nor sends n + 1 = 4 samples. -/
theorem ListVolumes_emits_counterexample :
    demoExporterNoVolumeStatus.Client.volumesAllPages = .ok () ∧
      demoExporterNoVolumeStatus.Client.ExtractVolumesInto () = .ok demoVolumes ∧
      demoVolumes.length = 3 ∧
      ListVolumes id demoExporterNoVolumeStatus emptyWorld =
        ⟨.panicked,
          ⟨[⟨⟨"openstack_cinder_volumes", []⟩, .GaugeValue, 3, []⟩],
            [.volumesAllPages, .extractVolumesInto]⟩⟩ ∧
      (ListVolumes id demoExporterNoVolumeStatus emptyWorld).result ≠ .returned none ∧
      (ListVolumes id demoExporterNoVolumeStatus emptyWorld).world.sink.length ≠
        demoVolumes.length + 1 := by
  have hrun : ListVolumes id demoExporterNoVolumeStatus emptyWorld =
      ⟨.panicked,
        ⟨[⟨⟨"openstack_cinder_volumes", []⟩, .GaugeValue, 3, []⟩],
          [.volumesAllPages, .extractVolumesInto]⟩⟩ := rfl
  refine ⟨rfl, rfl, rfl, hrun, ?_, ?_⟩
  · rw [hrun]
    exact fun h => Outcome.noConfusion h
  · rw [hrun]
    decide

/-- With a four-label descriptor registered, the service loop sends one sample per
service and returns nil. -/
theorem agentStateLoop_ok (exporter : BaseOpenStackExporter) (d : Desc)
    (hd : exporter.Metrics "agent_state" = some d) (hl : d.variableLabels.length = 4)
    (services : List Service) (w : World) :
    agentStateLoop exporter services w =
      ⟨.returned none,
        ⟨w.sink ++ services.map (fun service =>
            (⟨d, .CounterValue, if service.State = "up" then 1 else 0,
              [service.Host, service.Binary, service.Status, service.Zone]⟩ : Sample)),
          w.calls⟩⟩ := by
  induction services generalizing w with
  | nil => simp [agentStateLoop]
  | cons service rest ih =>
    simp only [agentStateLoop, MustNewConstMetric, hd, hl, List.length_cons, List.length_nil]
    simp only [Nat.zero_add, Nat.reduceAdd, if_true]
    rw [ih]
    simp [World.send, agentStateValue]

/-- Claim C6: when draining the pages and extracting the services succeed,
`ListCinderAgentState` returns nil and sends exactly one `agent_state` sample per
service in input order. Its value is 1 if and only if the State of the service is
exactly the string up, and 0 otherwise (so Up, UP, down and the empty string give
0), and its four label values (Host, Binary, Status, Zone) pair off position by
position with the declared schema hostname, service, adminState, zone. The only
thing asked of the registry is the descriptor of `agent_state`, the metric this
routine belongs to, with its declared schema. -/
theorem ListCinderAgentState_emits (exporter : BaseOpenStackExporter) (w : World)
    (pages : exporter.Client.Pages) (allServices : List Service) (dAgent : Desc)
    (hAgent : exporter.Metrics "agent_state" = some dAgent)
    (hAgentLabels : declaredLabels "agent_state" = some dAgent.variableLabels)
    (hpages : exporter.Client.servicesAllPages = .ok pages)
    (hextract : exporter.Client.ExtractServices pages = .ok allServices) :
    ∃ samples : List Sample,
      samples =
        allServices.map (fun service =>
          (⟨dAgent, .CounterValue, if service.State = "up" then 1 else 0,
            [service.Host, service.Binary, service.Status, service.Zone]⟩ : Sample)) ∧
      ListCinderAgentState exporter w =
        ⟨.returned none,
          ⟨w.sink ++ samples, w.calls ++ [.servicesAllPages, .extractServices]⟩⟩ ∧
      samples.length = allServices.length ∧
      (∀ sample ∈ samples, sample.value = 1 ∨ sample.value = 0) ∧
      (∀ service : Service, agentStateValue service = 1 ↔ service.State = "up") ∧
      (∀ service : Service, agentStateValue service = 0 ↔ service.State ≠ "up") ∧
      dAgent.variableLabels = ["hostname", "service", "adminState", "zone"] ∧
      (∀ service ∈ allServices,
        dAgent.variableLabels.zip
            [service.Host, service.Binary, service.Status, service.Zone] =
          [("hostname", service.Host), ("service", service.Binary),
            ("adminState", service.Status), ("zone", service.Zone)]) ∧
      ["up", "Up", "UP", "down", ""].map
          (fun state => agentStateValue ⟨"h", "b", "s", "z", state⟩) = [1, 0, 0, 0, 0] := by
  have hAl : dAgent.variableLabels = ["hostname", "service", "adminState", "zone"] :=
    labels_of_declared "agent_state" rfl hAgentLabels
  refine ⟨_, rfl, ?_, by simp, ?_, ?_, ?_, hAl, ?_, by decide⟩
  · simp only [ListCinderAgentState, hpages, hextract]
    rw [agentStateLoop_ok exporter dAgent hAgent (by rw [hAl]; rfl)]
    simp [World.call]
  · intro sample hs
    simp only [List.mem_map] at hs
    obtain ⟨service, _, rfl⟩ := hs
    by_cases h : service.State = "up" <;> simp [h]
  · intro service
    by_cases h : service.State = "up" <;> simp [agentStateValue, h]
  · intro service
    by_cases h : service.State = "up" <;> simp [agentStateValue, h]
  · intro service _
    rw [hAl]
    rfl

/-- Instance of claim C6 on the four demo services, whose states are up, Up, down
and the empty string, with an exporter whose registry lacks `snapshots`. -/
theorem ListCinderAgentState_emits_witness :
    demoExporterNoSnapshots.Metrics "snapshots" = none ∧
      demoExporterNoSnapshots.Metrics "agent_state" =
        some ⟨"openstack_cinder_agent_state", ["hostname", "service", "adminState", "zone"]⟩ ∧
      (ListCinderAgentState demoExporterNoSnapshots emptyWorld).result = .returned none ∧
      (ListCinderAgentState demoExporterNoSnapshots emptyWorld).world.sink.map Sample.value =
        [1, 0, 0, 0] ∧
      (ListCinderAgentState demoExporterNoSnapshots emptyWorld).world.sink.map
          Sample.labelValues =
        [ ["host-1", "cinder-volume", "enabled", "nova"],
          ["host-2", "cinder-volume", "enabled", "nova"],
          ["host-3", "cinder-scheduler", "disabled", "nova"],
          ["host-4", "cinder-backup", "enabled", "az2"] ] := by
  obtain ⟨samples, hs, hrun, _⟩ :=
    ListCinderAgentState_emits demoExporterNoSnapshots emptyWorld () demoServices
      ⟨"openstack_cinder_agent_state", ["hostname", "service", "adminState", "zone"]⟩
      rfl rfl rfl rfl
  subst hs
  rw [hrun]
  exact ⟨rfl, rfl, rfl, rfl, rfl⟩

/-- Claim C9: for `ListVolumes`, `ListSnapshots`, `ListCinderAgentState` and the
project listing of `ListCinderLimits`, if draining the page iterator or extracting
the typed records fails with error e, the routine returns exactly e and sends no
sample. -/
theorem listing_error_propagates (caseTable : Char → Char) (exporter : BaseOpenStackExporter)
    (endpointOpts : String → Option EndpointOpts) (w : World) (e : GoError) :
    (exporter.Client.volumesAllPages = .error e →
      ListVolumes caseTable exporter w =
        ⟨.returned (some e), ⟨w.sink, w.calls ++ [.volumesAllPages]⟩⟩) ∧
    (∀ pages, exporter.Client.volumesAllPages = .ok pages →
      exporter.Client.ExtractVolumesInto pages = .error e →
      ListVolumes caseTable exporter w =
        ⟨.returned (some e), ⟨w.sink, w.calls ++ [.volumesAllPages, .extractVolumesInto]⟩⟩) ∧
    (exporter.Client.snapshotsAllPages = .error e →
      ListSnapshots exporter w =
        ⟨.returned (some e), ⟨w.sink, w.calls ++ [.snapshotsAllPages]⟩⟩) ∧
    (∀ pages, exporter.Client.snapshotsAllPages = .ok pages →
      exporter.Client.ExtractSnapshots pages = .error e →
      ListSnapshots exporter w =
        ⟨.returned (some e), ⟨w.sink, w.calls ++ [.snapshotsAllPages, .extractSnapshots]⟩⟩) ∧
    (exporter.Client.servicesAllPages = .error e →
      ListCinderAgentState exporter w =
        ⟨.returned (some e), ⟨w.sink, w.calls ++ [.servicesAllPages]⟩⟩) ∧
    (∀ pages, exporter.Client.servicesAllPages = .ok pages →
      exporter.Client.ExtractServices pages = .error e →
      ListCinderAgentState exporter w =
        ⟨.returned (some e), ⟨w.sink, w.calls ++ [.servicesAllPages, .extractServices]⟩⟩) ∧
    (∀ eo c, selectEndpointOpts endpointOpts = .ok eo →
      exporter.Client.NewIdentityV3 eo = .ok c →
      exporter.Client.projectsAllPages c = .error e →
      ListCinderLimits exporter endpointOpts w =
        ⟨.returned (some e), ⟨w.sink, w.calls ++ [.newIdentityV3 eo, .projectsAllPages]⟩⟩) ∧
    (∀ eo c pages, selectEndpointOpts endpointOpts = .ok eo →
      exporter.Client.NewIdentityV3 eo = .ok c →
      exporter.Client.projectsAllPages c = .ok pages →
      exporter.Client.ExtractProjects pages = .error e →
      ListCinderLimits exporter endpointOpts w =
        ⟨.returned (some e),
          ⟨w.sink, w.calls ++ [.newIdentityV3 eo, .projectsAllPages, .extractProjects]⟩⟩) := by
  refine ⟨?_, ?_, ?_, ?_, ?_, ?_, ?_, ?_⟩
  · intro h
    simp [ListVolumes, h, World.call]
  · intro pages h1 h2
    simp [ListVolumes, h1, h2, World.call]
  · intro h
    simp [ListSnapshots, h, World.call]
  · intro pages h1 h2
    simp [ListSnapshots, h1, h2, World.call]
  · intro h
    simp [ListCinderAgentState, h, World.call]
  · intro pages h1 h2
    simp [ListCinderAgentState, h1, h2, World.call]
  · intro eo c h1 h2 h3
    simp [ListCinderLimits, h1, h2, h3, World.call]
  · intro eo c pages h1 h2 h3 h4
    simp [ListCinderLimits, h1, h2, h3, h4, World.call]

/-- Instance of claim C9 on a cloud whose page iterators fail with the error
connection reset: each of the four routines returns that error and sends nothing. -/
theorem listing_error_propagates_witness :
    demoExporterListingFails.Client.volumesAllPages = .error ⟨"connection reset"⟩ ∧
      ListVolumes id demoExporterListingFails emptyWorld =
        ⟨.returned (some ⟨"connection reset"⟩), ⟨[], [.volumesAllPages]⟩⟩ ∧
      ListSnapshots demoExporterListingFails emptyWorld =
        ⟨.returned (some ⟨"connection reset"⟩), ⟨[], [.snapshotsAllPages]⟩⟩ ∧
      ListCinderAgentState demoExporterListingFails emptyWorld =
        ⟨.returned (some ⟨"connection reset"⟩), ⟨[], [.servicesAllPages]⟩⟩ ∧
      ListCinderLimits demoExporterListingFails demoEndpointOpts emptyWorld =
        ⟨.returned (some ⟨"connection reset"⟩),
          ⟨[], [.newIdentityV3 demoIdentityOpts, .projectsAllPages]⟩⟩ :=
  have h := listing_error_propagates id demoExporterListingFails demoEndpointOpts emptyWorld
    ⟨"connection reset"⟩
  ⟨rfl, h.1 rfl, h.2.2.1 rfl, h.2.2.2.2.1 rfl,
    h.2.2.2.2.2.2.1 demoIdentityOpts () rfl rfl rfl⟩

/-- The two fetches of a tenant, as a function of the tenant. -/
theorem limitsCalls_fun :
    limitsCalls = fun p => [Call.quotasetsGet p.ID, Call.quotasetsGetUsage p.ID] := rfl

/-- One round of the tenant loop in which both fetches succeed and both
descriptors are registered with one label. -/
theorem limitsLoop_cons_ok (exporter : BaseOpenStackExporter) (dMax dUsed : Desc)
    (hMax : exporter.Metrics "limits_max" = some dMax)
    (hUsed : exporter.Metrics "limits_used" = some dUsed)
    (hMaxL : dMax.variableLabels.length = 1) (hUsedL : dUsed.variableLabels.length = 1)
    (p : Project) (rest : List Project) (limits : QuotaSet) (limitsUsed : QuotaUsageSet)
    (hget : exporter.Client.quotasetsGet p.ID = .ok limits)
    (husage : exporter.Client.quotasetsGetUsage p.ID = .ok limitsUsed) (w : World) :
    limitsLoop exporter (p :: rest) w =
      limitsLoop exporter rest
        ⟨w.sink ++ limitsSamples dMax dUsed p limits limitsUsed, w.calls ++ limitsCalls p⟩ := by
  simp only [limitsLoop, hget, husage, MustNewConstMetric, hMax, hUsed, hMaxL, hUsedL,
    List.length_cons, List.length_nil, Nat.zero_add, if_true]
  simp [World.send, World.call, limitsSamples, limitsCalls]

/-- The tenant loop over a list whose first tenants all have successful fetches
runs through them, sending their pairs, and continues with the rest. -/
theorem limitsLoop_append_ok (exporter : BaseOpenStackExporter) (dMax dUsed : Desc)
    (hMax : exporter.Metrics "limits_max" = some dMax)
    (hUsed : exporter.Metrics "limits_used" = some dUsed)
    (hMaxL : dMax.variableLabels.length = 1) (hUsedL : dUsed.variableLabels.length = 1)
    (quota : String → QuotaSet) (usage : String → QuotaUsageSet)
    (before rest : List Project)
    (hbefore : ∀ t ∈ before,
      exporter.Client.quotasetsGet t.ID = .ok (quota t.ID) ∧
        exporter.Client.quotasetsGetUsage t.ID = .ok (usage t.ID))
    (w : World) :
    limitsLoop exporter (before ++ rest) w =
      limitsLoop exporter rest
        ⟨w.sink ++ before.flatMap
            (fun t => limitsSamples dMax dUsed t (quota t.ID) (usage t.ID)),
          w.calls ++ before.flatMap limitsCalls⟩ := by
  induction before generalizing w with
  | nil => simp
  | cons t ts ih =>
    have ht := hbefore t (List.mem_cons_self t ts)
    rw [List.cons_append,
      limitsLoop_cons_ok exporter dMax dUsed hMax hUsed hMaxL hUsedL t (ts ++ rest)
        (quota t.ID) (usage t.ID) ht.1 ht.2 w,
      ih (fun u hu => hbefore u (List.mem_cons_of_mem t hu))]
    simp [List.flatMap_cons, List.append_assoc]

/-- With both descriptors registered with one label, whatever the fetches answer,
the tenant loop sends complete pairs only. -/
theorem limitsLoop_pairs (exporter : BaseOpenStackExporter) (dMax dUsed : Desc)
    (hMax : exporter.Metrics "limits_max" = some dMax)
    (hUsed : exporter.Metrics "limits_used" = some dUsed)
    (hMaxL : dMax.variableLabels.length = 1) (hUsedL : dUsed.variableLabels.length = 1)
    (projects : List Project) (w : World) :
    ∃ pairs : List (Sample × Sample),
      (limitsLoop exporter projects w).world.sink =
        w.sink ++ pairs.flatMap (fun ab => [ab.1, ab.2]) ∧
      pairs.length ≤ projects.length ∧
      ∀ ab ∈ pairs, ab.1.desc = dMax ∧ ab.2.desc = dUsed ∧
        ab.1.labelValues = ab.2.labelValues := by
  induction projects generalizing w with
  | nil => exact ⟨[], by simp [limitsLoop], by simp, by simp⟩
  | cons p rest ih =>
    cases hget : exporter.Client.quotasetsGet p.ID with
    | error err =>
      exact ⟨[], by simp [limitsLoop, hget, World.call], by simp, by simp⟩
    | ok limits =>
      cases husage : exporter.Client.quotasetsGetUsage p.ID with
      | error err =>
        exact ⟨[], by simp [limitsLoop, hget, husage, World.call], by simp, by simp⟩
      | ok limitsUsed =>
        rw [limitsLoop_cons_ok exporter dMax dUsed hMax hUsed hMaxL hUsedL p rest limits
          limitsUsed hget husage w]
        obtain ⟨pairs, h1, h2, h3⟩ := ih
          ⟨w.sink ++ limitsSamples dMax dUsed p limits limitsUsed, w.calls ++ limitsCalls p⟩
        refine ⟨(⟨dMax, .GaugeValue, limits.Gigabytes, [p.Name]⟩,
          ⟨dUsed, .GaugeValue, limitsUsed.Gigabytes.InUse, [p.Name]⟩) :: pairs, ?_, ?_, ?_⟩
        · rw [h1]
          simp [limitsSamples, List.flatMap_cons]
        · simp only [List.length_cons]
          omega
        · intro ab hab
          rcases List.mem_cons.1 hab with h | h
          · subst h
            exact ⟨rfl, rfl, rfl⟩
          · exact h3 ab h

/-- Every call of the tenant loop extends the trace of calls. -/
theorem limitsLoop_calls_extend (exporter : BaseOpenStackExporter) (projects : List Project)
    (w : World) :
    ∃ more : List Call, (limitsLoop exporter projects w).world.calls = w.calls ++ more := by
  induction projects generalizing w with
  | nil => exact ⟨[], by simp [limitsLoop]⟩
  | cons p rest ih =>
    simp only [limitsLoop]
    split
    · exact ⟨[.quotasetsGet p.ID], by simp [World.call]⟩
    · split
      · exact ⟨[.quotasetsGet p.ID, .quotasetsGetUsage p.ID], by simp [World.call]⟩
      · split
        · exact ⟨[.quotasetsGet p.ID, .quotasetsGetUsage p.ID], by simp [World.call]⟩
        · split
          · exact ⟨[.quotasetsGet p.ID, .quotasetsGetUsage p.ID],
              by simp [World.call, World.send]⟩
          · generalize hw :
              World.send (World.send (World.call (World.call w (.quotasetsGet p.ID))
                (.quotasetsGetUsage p.ID)) _) _ = w2
            have hcalls : w2.calls = w.calls ++ [.quotasetsGet p.ID, .quotasetsGetUsage p.ID] := by
              rw [← hw]
              simp [World.call, World.send]
            obtain ⟨more, hmore⟩ := ih w2
            exact ⟨[.quotasetsGet p.ID, .quotasetsGetUsage p.ID] ++ more,
              by rw [hmore, hcalls]; simp⟩

/-- Once an option is selected, the first call of `ListCinderLimits` builds the
identity client from it. -/
theorem ListCinderLimits_first_call (exporter : BaseOpenStackExporter)
    (endpointOpts : String → Option EndpointOpts) (w : World) (eo : EndpointOpts)
    (hsel : selectEndpointOpts endpointOpts = .ok eo) :
    ∃ more : List Call,
      (ListCinderLimits exporter endpointOpts w).world.calls =
        w.calls ++ .newIdentityV3 eo :: more := by
  simp only [ListCinderLimits, hsel]
  split
  · exact ⟨[], by simp [World.call]⟩
  · split
    · exact ⟨[.projectsAllPages], by simp [World.call]⟩
    · split
      · exact ⟨[.projectsAllPages, .extractProjects], by simp [World.call]⟩
      · rename_i allProjects _
        obtain ⟨more, hmore⟩ := limitsLoop_calls_extend exporter allProjects
          (((w.call (.newIdentityV3 eo)).call .projectsAllPages).call .extractProjects)
        exact ⟨[.projectsAllPages, .extractProjects] ++ more,
          by rw [hmore]; simp [World.call]⟩

/-- Claim C5: the endpoint-option selection at the start of `ListCinderLimits`. If
the key identity is present its value is selected (also when cinder is present);
otherwise if the key cinder is present its value is selected; the selected value is
the one the identity client is built from. Otherwise, in particular for the empty
map, the routine returns the resolution error and leaves the state untouched: no
identity client is built, no project is listed and no sample is sent. -/
theorem ListCinderLimits_endpoint_selection (exporter : BaseOpenStackExporter)
    (endpointOpts : String → Option EndpointOpts) (w : World) :
    (∀ v, endpointOpts "identity" = some v →
      selectEndpointOpts endpointOpts = .ok v ∧
        ∃ more : List Call,
          (ListCinderLimits exporter endpointOpts w).world.calls =
            w.calls ++ .newIdentityV3 v :: more) ∧
    (∀ v, endpointOpts "identity" = none → endpointOpts "cinder" = some v →
      selectEndpointOpts endpointOpts = .ok v ∧
        ∃ more : List Call,
          (ListCinderLimits exporter endpointOpts w).world.calls =
            w.calls ++ .newIdentityV3 v :: more) ∧
    (endpointOpts "identity" = none → endpointOpts "cinder" = none →
      selectEndpointOpts endpointOpts =
          .error (errorsNew "No EndpointOpts available to create Identity client") ∧
        ListCinderLimits exporter endpointOpts w =
          ⟨.returned (some (errorsNew "No EndpointOpts available to create Identity client")),
            w⟩) ∧
    ListCinderLimits exporter (fun _ => none) w =
      ⟨.returned (some (errorsNew "No EndpointOpts available to create Identity client")),
        w⟩ := by
  refine ⟨?_, ?_, ?_, ?_⟩
  · intro v hv
    have hsel : selectEndpointOpts endpointOpts = .ok v := by
      simp [selectEndpointOpts, hv]
    exact ⟨hsel, ListCinderLimits_first_call exporter endpointOpts w v hsel⟩
  · intro v hi hv
    have hsel : selectEndpointOpts endpointOpts = .ok v := by
      simp [selectEndpointOpts, hi, hv]
    exact ⟨hsel, ListCinderLimits_first_call exporter endpointOpts w v hsel⟩
  · intro hi hc
    have hsel : selectEndpointOpts endpointOpts =
        .error (errorsNew "No EndpointOpts available to create Identity client") := by
      simp [selectEndpointOpts, hi, hc]
    exact ⟨hsel, by simp [ListCinderLimits, hsel]⟩
  · simp [ListCinderLimits, selectEndpointOpts]

/-- Instance of claim C5: with both keys present the identity options are selected,
with the key cinder alone the cinder options are, and the empty map gives the
resolution error without any call or sample. -/
theorem ListCinderLimits_endpoint_selection_witness :
    demoEndpointOpts "identity" = some demoIdentityOpts ∧
      demoEndpointOpts "cinder" = some demoCinderOpts ∧
      selectEndpointOpts demoEndpointOpts = .ok demoIdentityOpts ∧
      demoEndpointOptsCinderOnly "identity" = none ∧
      selectEndpointOpts demoEndpointOptsCinderOnly = .ok demoCinderOpts ∧
      ListCinderLimits demoExporter (fun _ => none) emptyWorld =
        ⟨.returned (some ⟨"No EndpointOpts available to create Identity client"⟩),
          ⟨[], []⟩⟩ :=
  ⟨rfl, rfl,
    ((ListCinderLimits_endpoint_selection demoExporter demoEndpointOpts emptyWorld).1
      demoIdentityOpts rfl).1,
    rfl,
    ((ListCinderLimits_endpoint_selection demoExporter demoEndpointOptsCinderOnly
      emptyWorld).2.1 demoCinderOpts rfl rfl).1,
    ((ListCinderLimits_endpoint_selection demoExporter (fun _ => none) emptyWorld).2.2.1
      rfl rfl).2⟩

/-- Claim C7, amended: when the registry holds the descriptors of `limits_max` and
`limits_used` with their declared label schemas, and the endpoint selection, the
identity client, the project listing and every quota and usage fetch succeed for a
list of n tenants, `ListCinderLimits` returns nil and sends exactly 2n samples: for each tenant in listing order a
`limits_max` gauge whose value is the Gigabytes ceiling of its quota, immediately
followed by a `limits_used` gauge whose value is its Gigabytes in-use figure, each
with exactly one label value, the Name of the tenant. Two tenants give four
samples. -/
theorem ListCinderLimits_emits (exporter : BaseOpenStackExporter)
    (endpointOpts : String → Option EndpointOpts) (w : World) (eo : EndpointOpts)
    (c : exporter.Client.IdentityClient) (pages : exporter.Client.Pages)
    (allProjects : List Project) (quota : String → QuotaSet) (usage : String → QuotaUsageSet)
    (dMax dUsed : Desc)
    (hMax : exporter.Metrics "limits_max" = some dMax)
    (hMaxLabels : declaredLabels "limits_max" = some dMax.variableLabels)
    (hUsed : exporter.Metrics "limits_used" = some dUsed)
    (hUsedLabels : declaredLabels "limits_used" = some dUsed.variableLabels)
    (hsel : selectEndpointOpts endpointOpts = .ok eo)
    (hclient : exporter.Client.NewIdentityV3 eo = .ok c)
    (hpages : exporter.Client.projectsAllPages c = .ok pages)
    (hextract : exporter.Client.ExtractProjects pages = .ok allProjects)
    (hfetch : ∀ p ∈ allProjects,
      exporter.Client.quotasetsGet p.ID = .ok (quota p.ID) ∧
        exporter.Client.quotasetsGetUsage p.ID = .ok (usage p.ID)) :
    ∃ samples : List Sample,
      samples =
        allProjects.flatMap (fun p =>
          [(⟨dMax, .GaugeValue, (quota p.ID).Gigabytes, [p.Name]⟩ : Sample),
            (⟨dUsed, .GaugeValue, (usage p.ID).Gigabytes.InUse, [p.Name]⟩ : Sample)]) ∧
      ListCinderLimits exporter endpointOpts w =
        ⟨.returned none,
          ⟨w.sink ++ samples,
            w.calls ++ [.newIdentityV3 eo, .projectsAllPages, .extractProjects] ++
              allProjects.flatMap (fun p => [.quotasetsGet p.ID, .quotasetsGetUsage p.ID])⟩⟩ ∧
      samples.length = 2 * allProjects.length ∧
      (allProjects.length = 2 → samples.length = 4) ∧
      dMax.variableLabels = ["tenant"] ∧
      dUsed.variableLabels = ["tenant"] := by
  have hMl : dMax.variableLabels = ["tenant"] :=
    labels_of_declared "limits_max" rfl hMaxLabels
  have hUl : dUsed.variableLabels = ["tenant"] :=
    labels_of_declared "limits_used" rfl hUsedLabels
  have hlen : ∀ l : List Project,
      (l.flatMap (fun p =>
        [(⟨dMax, .GaugeValue, (quota p.ID).Gigabytes, [p.Name]⟩ : Sample),
          (⟨dUsed, .GaugeValue, (usage p.ID).Gigabytes.InUse, [p.Name]⟩ : Sample)])).length =
        2 * l.length := by
    intro l
    induction l with
    | nil => rfl
    | cons t ts ih =>
      simp only [List.flatMap_cons, List.length_append, List.length_cons, List.length_nil, ih]
      omega
  refine ⟨_, rfl, ?_, hlen allProjects, ?_, hMl, hUl⟩
  · simp only [ListCinderLimits, hsel, hclient, hpages, hextract]
    have h := limitsLoop_append_ok exporter dMax dUsed hMax hUsed (by rw [hMl]; rfl)
      (by rw [hUl]; rfl) quota usage allProjects [] hfetch
      (((w.call (.newIdentityV3 eo)).call .projectsAllPages).call .extractProjects)
    rw [List.append_nil] at h
    rw [h]
    simp [limitsLoop, World.call, limitsSamples, limitsCalls_fun]
  · intro h2
    rw [hlen allProjects, h2]

/-- Instance of claim C7, amended, on two tenants: four samples, max then used for each
tenant, labelled alpha and beta. -/
theorem ListCinderLimits_emits_witness :
    demoExporter.Metrics "limits_max" = some ⟨"openstack_cinder_limits_max", ["tenant"]⟩ ∧
      demoExporter.Metrics "limits_used" = some ⟨"openstack_cinder_limits_used", ["tenant"]⟩ ∧
      ListCinderLimits demoExporter demoEndpointOpts emptyWorld =
        ⟨.returned none,
          ⟨[ ⟨⟨"openstack_cinder_limits_max", ["tenant"]⟩, .GaugeValue, 1000, ["alpha"]⟩,
              ⟨⟨"openstack_cinder_limits_used", ["tenant"]⟩, .GaugeValue, 40, ["alpha"]⟩,
              ⟨⟨"openstack_cinder_limits_max", ["tenant"]⟩, .GaugeValue, 500, ["beta"]⟩,
              ⟨⟨"openstack_cinder_limits_used", ["tenant"]⟩, .GaugeValue, 499, ["beta"]⟩ ],
            [ .newIdentityV3 demoIdentityOpts, .projectsAllPages, .extractProjects,
              .quotasetsGet "p1", .quotasetsGetUsage "p1",
              .quotasetsGet "p2", .quotasetsGetUsage "p2" ]⟩⟩ := by
  obtain ⟨samples, hs, hrun, _⟩ :=
    ListCinderLimits_emits demoExporter demoEndpointOpts emptyWorld demoIdentityOpts () ()
      demoTwoProjects demoQuota demoUsage
      ⟨"openstack_cinder_limits_max", ["tenant"]⟩ ⟨"openstack_cinder_limits_used", ["tenant"]⟩
      rfl rfl rfl rfl rfl rfl rfl rfl
      (fun p _ => ⟨rfl, rfl⟩)
  subst hs
  rw [hrun]
  exact ⟨rfl, rfl, rfl⟩

/-- Claim C7 as stated fails when the registry lacks `limits_used`: selection,
listing and all fetches succeed for two tenants, yet `ListCinderLimits` sends the
`limits_max` sample of the first tenant alone and then panics, so it neither
returns nil nor sends 2n = 4 samples. -/
theorem ListCinderLimits_emits_counterexample :
    demoExporterNoLimitsUsed.Client.ExtractProjects () = .ok demoTwoProjects ∧
      (∀ p ∈ demoTwoProjects,
        demoExporterNoLimitsUsed.Client.quotasetsGet p.ID = .ok (demoQuota p.ID) ∧
          demoExporterNoLimitsUsed.Client.quotasetsGetUsage p.ID = .ok (demoUsage p.ID)) ∧
      ListCinderLimits demoExporterNoLimitsUsed demoEndpointOpts emptyWorld =
        ⟨.panicked,
          ⟨[⟨⟨"openstack_cinder_limits_max", ["tenant"]⟩, .GaugeValue, 1000, ["alpha"]⟩],
            [ .newIdentityV3 demoIdentityOpts, .projectsAllPages, .extractProjects,
              .quotasetsGet "p1", .quotasetsGetUsage "p1" ]⟩⟩ ∧
      (ListCinderLimits demoExporterNoLimitsUsed demoEndpointOpts emptyWorld).result ≠
        .returned none ∧
      (ListCinderLimits demoExporterNoLimitsUsed demoEndpointOpts emptyWorld).world.sink.length ≠
        2 * demoTwoProjects.length := by
  have hrun : ListCinderLimits demoExporterNoLimitsUsed demoEndpointOpts emptyWorld =
      ⟨.panicked,
        ⟨[⟨⟨"openstack_cinder_limits_max", ["tenant"]⟩, .GaugeValue, 1000, ["alpha"]⟩],
          [ .newIdentityV3 demoIdentityOpts, .projectsAllPages, .extractProjects,
            .quotasetsGet "p1", .quotasetsGetUsage "p1" ]⟩⟩ := rfl
  refine ⟨rfl, fun p _ => ⟨rfl, rfl⟩, hrun, ?_, ?_⟩
  · rw [hrun]
    exact fun h => Outcome.noConfusion h
  · rw [hrun]
    decide

/-- Claim C8, amended: when the registry holds the descriptors of `limits_max` and
`limits_used` with their declared label schemas and tenant k is the first tenant
whose quota fetch or usage fetch fails, `ListCinderLimits` returns exactly the error of that fetch and has sent exactly
the 2(k-1) samples of the tenants before it, in order. Nothing is sent for tenant
k itself (not even its `limits_max` sample when only its usage fetch fails) nor for
any later tenant, and the last fetch issued is the failing one, so no fetch is
issued for a later tenant. With such a registry the samples sent by the routine
always come in complete max/used pairs. -/
theorem ListCinderLimits_aborts_at_first_failure (exporter : BaseOpenStackExporter)
    (endpointOpts : String → Option EndpointOpts) (w : World) (eo : EndpointOpts)
    (c : exporter.Client.IdentityClient) (pages : exporter.Client.Pages)
    (before : List Project) (p : Project) (after : List Project)
    (quota : String → QuotaSet) (usage : String → QuotaUsageSet)
    (dMax dUsed : Desc) (e : GoError)
    (hMax : exporter.Metrics "limits_max" = some dMax)
    (hMaxLabels : declaredLabels "limits_max" = some dMax.variableLabels)
    (hUsed : exporter.Metrics "limits_used" = some dUsed)
    (hUsedLabels : declaredLabels "limits_used" = some dUsed.variableLabels)
    (hsel : selectEndpointOpts endpointOpts = .ok eo)
    (hclient : exporter.Client.NewIdentityV3 eo = .ok c)
    (hpages : exporter.Client.projectsAllPages c = .ok pages)
    (hextract : exporter.Client.ExtractProjects pages = .ok (before ++ p :: after))
    (hbefore : ∀ t ∈ before,
      exporter.Client.quotasetsGet t.ID = .ok (quota t.ID) ∧
        exporter.Client.quotasetsGetUsage t.ID = .ok (usage t.ID))
    (hfail : exporter.Client.quotasetsGet p.ID = .error e ∨
      ((∃ limits, exporter.Client.quotasetsGet p.ID = .ok limits) ∧
        exporter.Client.quotasetsGetUsage p.ID = .error e)) :
    ∃ samples : List Sample,
      samples =
        before.flatMap (fun t =>
          [(⟨dMax, .GaugeValue, (quota t.ID).Gigabytes, [t.Name]⟩ : Sample),
            (⟨dUsed, .GaugeValue, (usage t.ID).Gigabytes.InUse, [t.Name]⟩ : Sample)]) ∧
      (ListCinderLimits exporter endpointOpts w).result = .returned (some e) ∧
      (ListCinderLimits exporter endpointOpts w).world.sink = w.sink ++ samples ∧
      samples.length = 2 * before.length ∧
      (exporter.Client.quotasetsGet p.ID = .error e →
        (ListCinderLimits exporter endpointOpts w).world.calls =
          w.calls ++ [.newIdentityV3 eo, .projectsAllPages, .extractProjects] ++
            before.flatMap (fun t => [.quotasetsGet t.ID, .quotasetsGetUsage t.ID]) ++
            [.quotasetsGet p.ID]) ∧
      ((∃ limits, exporter.Client.quotasetsGet p.ID = .ok limits) →
        (ListCinderLimits exporter endpointOpts w).world.calls =
          w.calls ++ [.newIdentityV3 eo, .projectsAllPages, .extractProjects] ++
            before.flatMap (fun t => [.quotasetsGet t.ID, .quotasetsGetUsage t.ID]) ++
            [.quotasetsGet p.ID, .quotasetsGetUsage p.ID]) ∧
      (∀ (endpointOpts2 : String → Option EndpointOpts) (w2 : World),
        ∃ pairs : List (Sample × Sample),
          (ListCinderLimits exporter endpointOpts2 w2).world.sink =
            w2.sink ++ pairs.flatMap (fun ab => [ab.1, ab.2]) ∧
          ∀ ab ∈ pairs, ab.1.desc = dMax ∧ ab.2.desc = dUsed ∧
            ab.1.labelValues = ab.2.labelValues) := by
  have hMl : dMax.variableLabels = ["tenant"] :=
    labels_of_declared "limits_max" rfl hMaxLabels
  have hUl : dUsed.variableLabels = ["tenant"] :=
    labels_of_declared "limits_used" rfl hUsedLabels
  have hMaxL : dMax.variableLabels.length = 1 := by rw [hMl]; rfl
  have hUsedL : dUsed.variableLabels.length = 1 := by rw [hUl]; rfl
  have hlen : ∀ l : List Project,
      (l.flatMap (fun t =>
        [(⟨dMax, .GaugeValue, (quota t.ID).Gigabytes, [t.Name]⟩ : Sample),
          (⟨dUsed, .GaugeValue, (usage t.ID).Gigabytes.InUse, [t.Name]⟩ : Sample)])).length =
        2 * l.length := by
    intro l
    induction l with
    | nil => rfl
    | cons t ts ih =>
      simp only [List.flatMap_cons, List.length_append, List.length_cons, List.length_nil, ih]
      omega
  have hrun : ListCinderLimits exporter endpointOpts w =
      limitsLoop exporter (p :: after)
        ⟨w.sink ++ before.flatMap
            (fun t => limitsSamples dMax dUsed t (quota t.ID) (usage t.ID)),
          (w.calls ++ [.newIdentityV3 eo, .projectsAllPages, .extractProjects]) ++
            before.flatMap limitsCalls⟩ := by
    simp only [ListCinderLimits, hsel, hclient, hpages, hextract]
    rw [limitsLoop_append_ok exporter dMax dUsed hMax hUsed hMaxL hUsedL quota usage before
      (p :: after) hbefore]
    simp [World.call]
  refine ⟨_, rfl, ?_, ?_, hlen before, ?_, ?_, ?_⟩
  · rw [hrun]
    rcases hfail with hget | ⟨⟨limits, hget⟩, husage⟩
    · simp [limitsLoop, hget]
    · simp [limitsLoop, hget, husage]
  · rw [hrun]
    rcases hfail with hget | ⟨⟨limits, hget⟩, husage⟩
    · simp [limitsLoop, hget, World.call, limitsSamples]
    · simp [limitsLoop, hget, husage, World.call, limitsSamples]
  · intro hget
    rw [hrun]
    simp [limitsLoop, hget, World.call, limitsCalls_fun]
  · rintro ⟨limits, hget⟩
    have husage : exporter.Client.quotasetsGetUsage p.ID = .error e := by
      rcases hfail with h | ⟨_, h⟩
      · rw [hget] at h
        exact Except.noConfusion h
      · exact h
    rw [hrun]
    simp [limitsLoop, hget, husage, World.call, limitsCalls_fun]
  · intro endpointOpts2 w2
    simp only [ListCinderLimits]
    split
    · exact ⟨[], by simp, by simp⟩
    · split
      · exact ⟨[], by simp [World.call], by simp⟩
      · split
        · exact ⟨[], by simp [World.call], by simp⟩
        · split
          · exact ⟨[], by simp [World.call], by simp⟩
          · rename_i allProjects _
            generalize hw3 :
              World.call (World.call (World.call w2 _) .projectsAllPages) .extractProjects = w3
            have hsink : w3.sink = w2.sink := by
              rw [← hw3]
              simp [World.call]
            obtain ⟨pairs, h1, _, h3⟩ :=
              limitsLoop_pairs exporter dMax dUsed hMax hUsed hMaxL hUsedL allProjects w3
            exact ⟨pairs, by rw [h1, hsink], h3⟩

/-- Instance of claim C8, amended, on three tenants where the usage fetch of the second one
fails: the error of that fetch is returned, only the pair of the first tenant was
sent, and no fetch was issued for the third tenant. -/
theorem ListCinderLimits_aborts_at_first_failure_witness :
    demoExporterUsageFails.Metrics "limits_used" =
        some ⟨"openstack_cinder_limits_used", ["tenant"]⟩ ∧
      demoExporterUsageFails.Client.ExtractProjects () =
        .ok ([⟨"p1", "alpha"⟩] ++ ⟨"p2", "beta"⟩ :: [⟨"p3", "gamma"⟩]) ∧
      demoExporterUsageFails.Client.quotasetsGetUsage "p2" =
        .error ⟨"usage of p2 unavailable"⟩ ∧
      (ListCinderLimits demoExporterUsageFails demoEndpointOpts emptyWorld).result =
        .returned (some ⟨"usage of p2 unavailable"⟩) ∧
      (ListCinderLimits demoExporterUsageFails demoEndpointOpts emptyWorld).world.sink =
        [ ⟨⟨"openstack_cinder_limits_max", ["tenant"]⟩, .GaugeValue, 1000, ["alpha"]⟩,
          ⟨⟨"openstack_cinder_limits_used", ["tenant"]⟩, .GaugeValue, 40, ["alpha"]⟩ ] ∧
      (ListCinderLimits demoExporterUsageFails demoEndpointOpts emptyWorld).world.calls =
        [ .newIdentityV3 demoIdentityOpts, .projectsAllPages, .extractProjects,
          .quotasetsGet "p1", .quotasetsGetUsage "p1",
          .quotasetsGet "p2", .quotasetsGetUsage "p2" ] := by
  obtain ⟨samples, hs, hresult, hsink, _, _, hcalls, _⟩ :=
    ListCinderLimits_aborts_at_first_failure demoExporterUsageFails demoEndpointOpts emptyWorld
      demoIdentityOpts () () [⟨"p1", "alpha"⟩] ⟨"p2", "beta"⟩ [⟨"p3", "gamma"⟩]
      demoQuota demoUsage
      ⟨"openstack_cinder_limits_max", ["tenant"]⟩ ⟨"openstack_cinder_limits_used", ["tenant"]⟩
      ⟨"usage of p2 unavailable"⟩
      rfl rfl rfl rfl rfl rfl rfl rfl
      (fun t ht => by
        have h : t = ⟨"p1", "alpha"⟩ := by simpa using ht
        subst h
        exact ⟨rfl, rfl⟩)
      (Or.inr ⟨⟨demoQuota "p2", rfl⟩, rfl⟩)
  subst hs
  refine ⟨rfl, rfl, rfl, hresult, ?_, ?_⟩
  · rw [hsink]
    rfl
  · rw [hcalls ⟨demoQuota "p2", rfl⟩]
    rfl

/-- Claim C8 as stated fails when the registry lacks `limits_used`: of three tenants
the second is the first whose usage fetch fails, yet `ListCinderLimits` does not
return the error of that fetch. It panics at the first tenant after sending its
`limits_max` sample alone, so the sink holds one sample instead of the 2(k-1) = 2
samples of the first tenant, and the samples are not complete pairs. -/
theorem ListCinderLimits_aborts_at_first_failure_counterexample :
    demoExporterNoLimitsUsedUsageFails.Client.ExtractProjects () =
        .ok ([⟨"p1", "alpha"⟩] ++ ⟨"p2", "beta"⟩ :: [⟨"p3", "gamma"⟩]) ∧
      demoExporterNoLimitsUsedUsageFails.Client.quotasetsGet "p1" = .ok (demoQuota "p1") ∧
      demoExporterNoLimitsUsedUsageFails.Client.quotasetsGetUsage "p1" = .ok (demoUsage "p1") ∧
      demoExporterNoLimitsUsedUsageFails.Client.quotasetsGet "p2" = .ok (demoQuota "p2") ∧
      demoExporterNoLimitsUsedUsageFails.Client.quotasetsGetUsage "p2" =
        .error ⟨"usage of p2 unavailable"⟩ ∧
      ListCinderLimits demoExporterNoLimitsUsedUsageFails demoEndpointOpts emptyWorld =
        ⟨.panicked,
          ⟨[⟨⟨"openstack_cinder_limits_max", ["tenant"]⟩, .GaugeValue, 1000, ["alpha"]⟩],
            [ .newIdentityV3 demoIdentityOpts, .projectsAllPages, .extractProjects,
              .quotasetsGet "p1", .quotasetsGetUsage "p1" ]⟩⟩ ∧
      (ListCinderLimits demoExporterNoLimitsUsedUsageFails demoEndpointOpts emptyWorld).result ≠
        .returned (some ⟨"usage of p2 unavailable"⟩) ∧
      (ListCinderLimits demoExporterNoLimitsUsedUsageFails demoEndpointOpts
          emptyWorld).world.sink.length ≠ 2 * 1 := by
  have hrun :
      ListCinderLimits demoExporterNoLimitsUsedUsageFails demoEndpointOpts emptyWorld =
        ⟨.panicked,
          ⟨[⟨⟨"openstack_cinder_limits_max", ["tenant"]⟩, .GaugeValue, 1000, ["alpha"]⟩],
            [ .newIdentityV3 demoIdentityOpts, .projectsAllPages, .extractProjects,
              .quotasetsGet "p1", .quotasetsGetUsage "p1" ]⟩⟩ := rfl
  refine ⟨rfl, rfl, rfl, rfl, rfl, hrun, ?_, ?_⟩
  · rw [hrun]
    exact fun h => Outcome.noConfusion h
  · rw [hrun]
    decide

end Exporters
